import Mathlib

/-!
Verification of the novelai-sdk CLI layer: a shallow embedding, in Lean 4, of
the request-normalization pipeline ( src/novelai/cli/generation.py ), the
argument validator and size parser ( src/novelai/cli/parser.py ) and the
interactive session state machine ( src/novelai/cli/interactive.py ), together
with theorems settling the specified properties of those components.

Python dictionaries are modelled as insertion-ordered association lists with
string keys; JSON values as an inductive type; Python floats as rationals
(only comparisons and decimal parsing occur in the modelled code); fallible
Python operations as Option-returning functions (none = the exception path).
-/

namespace NovelaiCLI

/-- A JSON-like value, as produced by json.loads in _load_request_json.
Numbers are modelled as integers (the modelled code never computes with
payload numbers, it only stores and compares them). -/
inductive JVal where
  | str (s : String)
  | num (n : Int)
  | jbool (b : Bool)
  | jnull
  | obj (fields : List (String × JVal))
  | arr (elems : List JVal)

/-- A JSON object with string keys, i.e. a Python dict as validated by
TypeAdapter(dict[str, object]) in _load_request_json: an insertion-ordered
association list. -/
abbrev Payload := List (String × JVal)

/-- Python d.get(k): the value at the first occurrence of key k, if any. -/
def lookupKey : Payload → String → Option JVal
  | [], _ => none
  | (k, v) :: rest, key => if k = key then some v else lookupKey rest key

/-- Python k in d. -/
def hasKey (p : Payload) (key : String) : Bool :=
  (lookupKey p key).isSome

/-- Python d[k] = v on a dict: replace the value at an existing key in place,
or append the new key at the end. -/
def dictSet : Payload → String → JVal → Payload
  | [], key, v => [(key, v)]
  | (k, w) :: rest, key, v =>
    if k = key then (k, v) :: rest else (k, w) :: dictSet rest key v

/-- Source _as_object_dict composed with d.get: a value is accepted exactly
when it is a dict (whose keys are strings, which holds for every obj here). -/
def asObjectDict : Option JVal → Option Payload
  | some (JVal.obj fields) => some fields
  | _ => none

/-- Source generation.py lines 166-169: a payload is low-level iff its
"parameters" value is a dict and it has an "input" or an "action" key. -/
def isLowLevelPayload (p : Payload) : Bool :=
  (match lookupKey p "parameters" with
    | some (JVal.obj _) => true
    | _ => false)
  && (hasKey p "input" || hasKey p "action")

/-- Source _sanitize_low_level_payload, parameterized by the two whitelists
allowed_top and allowed_params (in the source these are the model_fields of
the pydantic request/parameter schemas, which live outside the CLI layer);
every theorem below holds for every choice of whitelists. -/
def sanitizeLowLevel (allowedTop allowedParams : List String) (p : Payload) :
    Payload :=
  let cleaned := p.filter (fun kv => decide (kv.1 ∈ allowedTop))
  match asObjectDict (lookupKey cleaned "parameters") with
  | some parametersObj =>
    dictSet cleaned "parameters"
      (JVal.obj (parametersObj.filter (fun kv => decide (kv.1 ∈ allowedParams))))
  | none => cleaned

/-- Python stream_value != "sse" is false exactly when the value is the
string "sse" (comparison of an arbitrary object with a str). -/
def isSseValue : Option JVal → Bool
  | some (JVal.str t) => t == "sse"
  | _ => false

/-- Source _normalize_low_level_stream_mode. The dict(payload) / dict(params)
copies are value copies, so they are equalities here; the warn on override is
presentation-sink output and is not modelled. -/
def normalizeLowLevelStreamMode (p : Payload) (forceStream : Bool) : Payload :=
  match asObjectDict (lookupKey p "parameters") with
  | none => p
  | some parametersObj =>
    let streamValue := lookupKey parametersObj "stream"
    if forceStream then
      if isSseValue streamValue then p
      else dictSet p "parameters"
        (JVal.obj (dictSet parametersObj "stream" (JVal.str "sse")))
    else p

/-- Which dispatch entry point of the transport collaborator a request is
routed to by generate_from_request_json. -/
inductive DispatchPath where
  | lowStream
  | lowSingle
  | highStream
  | highSingle
deriving DecidableEq

/-- The collaborators of generate_from_request_json that live outside the CLI
layer: the two whitelists used by the sanitizer, and the four pydantic
model_validate checks ( StreamImageGenerationRequest, ImageGenerationRequest,
GenerateImageStreamParams, GenerateImageParams ), each modelled as an
arbitrary boolean acceptance predicate on payloads. -/
structure PipelineDeps where
  allowedTop : List String
  allowedParams : List String
  valLowStream : Payload → Bool
  valLowSingle : Payload → Bool
  valHighStream : Payload → Bool
  valHighSingle : Payload → Bool

/-- Observable outcome of one generate_from_request_json call: the dispatch
branch taken, whether schema validation succeeded (false = ValidationError
was raised, reported and the process exited), the payload that was validated,
and how many calls reached the transport collaborator. -/
structure PipelineResult where
  path : DispatchPath
  validated : Bool
  sent : Payload
  transportCalls : Nat

/-- Source generate_from_request_json (generation.py lines 162-212), with
file loading, console output and image persistence elided: classification,
sanitization, the is_stream decision, stream-mode normalization, validation
and dispatch, exactly in source order. -/
def generateFromRequestJson (deps : PipelineDeps) (argsStream : Bool)
    (p : Payload) : PipelineResult :=
  if isLowLevelPayload p then
    let p1 := sanitizeLowLevel deps.allowedTop deps.allowedParams p
    let parametersObj := asObjectDict (lookupKey p1 "parameters")
    let streamInPayload :=
      match parametersObj with
      | some po => hasKey po "stream"
      | none => false
    let isStream := argsStream || streamInPayload
    let p2 := normalizeLowLevelStreamMode p1 isStream
    if isStream then
      if deps.valLowStream p2 then ⟨DispatchPath.lowStream, true, p2, 1⟩
      else ⟨DispatchPath.lowStream, false, p2, 0⟩
    else
      if deps.valLowSingle p2 then ⟨DispatchPath.lowSingle, true, p2, 1⟩
      else ⟨DispatchPath.lowSingle, false, p2, 0⟩
  else if argsStream then
    if deps.valHighStream p then ⟨DispatchPath.highStream, true, p, 1⟩
    else ⟨DispatchPath.highStream, false, p, 0⟩
  else
    if deps.valHighSingle p then ⟨DispatchPath.highSingle, true, p, 1⟩
    else ⟨DispatchPath.highSingle, false, p, 0⟩

/-- The stream-trigger condition on the payload alone, as the claim states
it: the sanitized payload has a parameters mapping containing a "stream"
key (any value). -/
def streamKeyInSanitized (deps : PipelineDeps) (p : Payload) : Bool :=
  match asObjectDict
      (lookupKey (sanitizeLowLevel deps.allowedTop deps.allowedParams p)
        "parameters") with
  | some po => hasKey po "stream"
  | none => false

/-- One SSE chunk as handed to _save_stream_chunks: a base64-encoded image
string (the only field the decoder reads). -/
structure ImageStreamChunk where
  image : String
deriving DecidableEq

/-- Python format spec 04d: decimal digits left-padded with zeros to width
at least 4. -/
def pad4 (n : Nat) : String :=
  let s := toString n
  String.mk (List.replicate (4 - s.toList.length) '0' ++ s.toList)

/-- Source _save_stream_chunks (generation.py lines 57-83). The base64
decoder is an external collaborator (the spec treats image bytes as opaque
buffers), passed here as a total function to byte lists; the filesystem is
modelled by the returned list of (filename, bytes) writes inside the stream
directory. One loop iteration: decode the chunk, advance the 1-based
counter, write chunk_%04d.png, accumulate the byte total. -/
def streamChunkStep (decode : String → List Nat)
    (acc : List (String × List Nat) × Nat × Nat) (chunk : ImageStreamChunk) :
    List (String × List Nat) × Nat × Nat :=
  let decodedImage := decode chunk.image
  let chunkCount := acc.2.1 + 1
  (acc.1 ++ [("chunk_" ++ pad4 chunkCount ++ ".png", decodedImage)],
    chunkCount, acc.2.2 + decodedImage.length)

/-- Source _save_stream_chunks (generation.py lines 57-83): run the loop
over the chunk sequence from an empty state, then raise the zero-chunk
RuntimeError iff the counter is still zero. Returns the file writes and
whether that error was raised. -/
def saveStreamChunks (decode : String → List Nat)
    (chunks : List ImageStreamChunk) : List (String × List Nat) × Bool :=
  let final := chunks.foldl (streamChunkStep decode) ([], 0, 0)
  (final.1, final.2.1 == 0)

/-- Index of the last dot in a list of characters, if any. -/
def lastDotIdx : List Char → Option Nat
  | [] => none
  | c :: rest =>
    match lastDotIdx rest with
    | some i => some (i + 1)
    | none => if c = '.' then some 0 else none

/-- pathlib suffix of a final path component: the part of the name from its
last dot on, when that dot is neither the first nor the last character. -/
def nameSuffix (name : String) : String :=
  match lastDotIdx name.toList with
  | some i =>
    if 0 < i ∧ i + 1 < name.toList.length then String.mk (name.toList.drop i)
    else ""
  | none => ""

/-- A relative pathlib.Path, as its list of components (parts); the empty
list is Path of the current directory, whose parts are empty. -/
abbrev PyPath := List String

/-- Split a character list at every occurrence of a separator. -/
def splitChar : List Char → Char → List (List Char)
  | [], _ => [[]]
  | c :: rest, sep =>
    match splitChar rest sep with
    | [] => [[]]
    | h :: t => if c = sep then [] :: h :: t else (c :: h) :: t

/-- pathlib.Path of a relative path string: components split on the
separator, with spurious empty components and single dots collapsed. -/
def pyPathOfString (s : String) : PyPath :=
  ((splitChar s.toList '/').map String.mk).filter
    (fun comp => !(comp == "") && !(comp == "."))

/-- pathlib Path.suffix: suffix of the last component, or empty if there is
no component. -/
def pathSuffix (p : PyPath) : String :=
  match p.getLast? with
  | some name => nameSuffix name
  | none => ""

/-- pathlib Path.parent of a relative path: drop the last component (the
parent of a single-component path is the current directory). -/
def pathParent (p : PyPath) : PyPath :=
  p.dropLast

/-- Source _save_images (generation.py lines 37-54), with the images kept
opaque (only their number is read) and the filesystem modelled by the
returned list of written file paths; mkdir side effects are elided. -/
def saveImages (images : List Unit) (output : String) : List PyPath :=
  let outputPath := pyPathOfString output
  if images.length = 1 then
    let target :=
      if pathSuffix outputPath = "" then outputPath ++ ["image.png"]
      else outputPath
    [target]
  else
    let dir :=
      if pathSuffix outputPath ≠ "" then pathParent outputPath
      else outputPath
    (List.range images.length).map
      (fun i => dir ++ ["image_" ++ pad4 (i + 1) ++ ".png"])

/-- Characters stripped by Python str.strip with no argument. -/
def isPySpace (c : Char) : Bool :=
  (c == ' ') || (c == '\t') || (c == '\n') || (c == '\r') ||
    (c == '\x0b') || (c == '\x0c')

/-- Python str.strip with no argument. -/
def pyStrip (s : String) : String :=
  String.mk (((s.toList.dropWhile isPySpace).reverse.dropWhile
    isPySpace).reverse)

/-- ASCII lowering of one character (the inputs lowered by the modelled code
are ASCII command keys and option words). -/
def lowerChar (c : Char) : Char :=
  if 'A' ≤ c ∧ c ≤ 'Z' then Char.ofNat (c.toNat + 32) else c

/-- Python str.lower on ASCII text. -/
def pyLower (s : String) : String :=
  String.mk (s.toList.map lowerChar)

/-- Value of a run of decimal digit characters, or none at the first
non-digit. -/
def digitsVal : List Char → Nat → Option Nat
  | [], acc => some acc
  | c :: rest, acc =>
    if c.isDigit then digitsVal rest (acc * 10 + (c.toNat - 48)) else none

/-- Model of the Python builtin int on strings: surrounding whitespace,
an optional sign, then a nonempty run of decimal digits; none models the
ValueError path. -/
def parsePyInt (v : String) : Option Int :=
  match (pyStrip v).toList with
  | [] => none
  | c :: rest =>
    if c = '-' then
      if rest.isEmpty then none
      else (digitsVal rest 0).map (fun n => -(n : Int))
    else if c = '+' then
      if rest.isEmpty then none
      else (digitsVal rest 0).map (fun n => (n : Int))
    else (digitsVal (c :: rest) 0).map (fun n => (n : Int))

/-- Split a character list at the first occurrence of an exponent marker. -/
def splitExpMarker : List Char → List Char × Option (List Char)
  | [] => ([], none)
  | c :: rest =>
    if c = 'e' ∨ c = 'E' then ([], some rest)
    else
      match splitExpMarker rest with
      | (m, e) => (c :: m, e)

/-- Model of the Python builtin float on strings, as an exact rational:
surrounding whitespace, an optional sign, a decimal mantissa with at most
one dot and at least one digit, and an optional signed decimal exponent;
none models the ValueError path. Infinities and nan, which no modelled
validator accepts anyway, are not modelled. -/
def parsePyFloat (v : String) : Option ℚ :=
  let cs := (pyStrip v).toList
  let signAndRest : Int × List Char :=
    match cs with
    | '-' :: rest => (-1, rest)
    | '+' :: rest => (1, rest)
    | _ => (1, cs)
  let (m, expPart) := splitExpMarker signAndRest.2
  let mantissa : Option (Int × Nat) :=
    match splitChar m '.' with
    | [ intPart ] =>
      if intPart.isEmpty then none
      else (digitsVal intPart 0).map (fun n => ((n : Int), 1))
    | [ intPart, fracPart ] =>
      if intPart.isEmpty ∧ fracPart.isEmpty then none
      else
        match digitsVal intPart 0, digitsVal fracPart 0 with
        | some ip, some fp =>
          some ((ip * (10 ^ fracPart.length : Nat) + fp : Int),
            (10 ^ fracPart.length : Nat))
        | _, _ => none
    | _ => none
  let expVal : Option Int :=
    match expPart with
    | none => some 0
    | some ec =>
      match ec with
      | [] => none
      | '-' :: rest =>
        if rest.isEmpty then none
        else (digitsVal rest 0).map (fun n => -(n : Int))
      | '+' :: rest =>
        if rest.isEmpty then none
        else (digitsVal rest 0).map (fun n => (n : Int))
      | _ => (digitsVal ec 0).map (fun n => (n : Int))
  match mantissa, expVal with
  | some (num, den), some e =>
    if 0 ≤ e then
      some (mkRat (signAndRest.1 * num * (10 ^ e.toNat : Nat)) den)
    else some (mkRat (signAndRest.1 * num) (den * (10 ^ (-e).toNat : Nat)))
  | _, _ => none

/-- Source parse_bool_value (parser.py lines 29-35); none models the
ValueError path. -/
def parse_bool_value (value : String) : Option Bool :=
  let normalized := pyLower (pyStrip value)
  if [ "1", "true", "yes", "y", "on" ].contains normalized then some true
  else if [ "0", "false", "no", "n", "off" ].contains normalized then
    some false
  else none

/-- Source parse_seed_value (parser.py lines 38-42): some none is the
explicit no-seed result, none models the ValueError path of int. -/
def parse_seed_value (value : String) : Option (Option Int) :=
  let normalized := pyLower (pyStrip value)
  if [ "none", "null", "random" ].contains normalized then some none
  else (parsePyInt value).map some

/-- Source parse_size (parser.py lines 244-253): a width-height pair when
the string contains an x and splits into exactly two integers, the string
itself when it contains no x; none models the fail-and-exit path. -/
def parse_size (sizeStr : String) : Option (Sum (Int × Int) String) :=
  if sizeStr.toList.contains 'x' then
    match (splitChar sizeStr.toList 'x').map String.mk with
    | [ w, h ] =>
      match parsePyInt w, parsePyInt h with
      | some wi, some hi => some (Sum.inl (wi, hi))
      | _, _ => none
    | _ => none
  else some (Sum.inr sizeStr)

/-- The argparse.Namespace of generation settings, as built by build_parser
and mutated by the interactive loop. Python floats are modelled as exact
rationals (the modelled code only parses and compares them); Optional
fields are Option. The one-shot CLI mode flags (interactive, request_json,
request_json_stdin), which no interactive command reads or writes, are
omitted. -/
structure SessionState where
  prompt : Option String
  model : String
  size : String
  steps : Int
  scale : ℚ
  sampler : String
  seed : Option Int
  quality : Bool
  uc_preset : String
  negative_prompt : Option String
  reference : Option String
  ref_type : String
  ref_fidelity : ℚ
  ref_strength : ℚ
  character_prompt : Option String
  controlnet : Option String
  controlnet_strength : ℚ
  image : Option String
  strength : ℚ
  n_images : Int
  noise : ℚ
  output : String
  stream : Bool
  stream_dir : String
deriving DecidableEq

/-- Modelled from the spec: DEFAULT_MODEL, DEFAULT_SAMPLER and
DEFAULT_UC_PRESET come from the novelai.constants modules, which are
outside this source tree; the model id is the one named by the spec's
scenarios and by MODEL_LABELS, the two others are placeholders whose exact
strings no claim depends on. -/
def DEFAULT_MODEL : String := "nai-diffusion-4-5-full"

/-- Modelled from the spec: see DEFAULT_MODEL. -/
def DEFAULT_SAMPLER : String := "k_euler_ancestral"

/-- Modelled from the spec: see DEFAULT_MODEL. -/
def DEFAULT_UC_PRESET : String := "light"

/-- Source constants.py line 14. -/
def REF_TYPE_CHOICES : List String := [ "character", "style", "character&style" ]

/-- The pristine defaults of build_parser (parser.py lines 45-193), i.e.
parser.parse_args of the empty argument list as computed in
interactive_loop. -/
def defaultArgs : SessionState where
  prompt := none
  model := DEFAULT_MODEL
  size := "portrait"
  steps := 23
  scale := 5
  sampler := DEFAULT_SAMPLER
  seed := none
  quality := true
  uc_preset := DEFAULT_UC_PRESET
  negative_prompt := none
  reference := none
  ref_type := "character&style"
  ref_fidelity := 1
  ref_strength := 1
  character_prompt := none
  controlnet := none
  controlnet_strength := mkRat 6 10
  image := none
  strength := mkRat 7 10
  n_images := 1
  noise := 0
  output := "output"
  stream := false
  stream_dir := "streaming_output"

/-- Source _validate_range (parser.py lines 21-26) as a boolean: true iff
min_value is at most the value which is at most max_value. -/
def inClosedRange (x lo hi : ℚ) : Bool :=
  decide (lo ≤ x) && decide (x ≤ hi)

/-- Source validate_args (parser.py lines 216-241) as a boolean: true iff
no range check raises. The range/enum validator of the spec. -/
def validate_args (s : SessionState) : Bool :=
  decide (1 ≤ s.steps) && decide (s.steps ≤ 50) &&
  decide (1 ≤ s.n_images) && decide (s.n_images ≤ 8) &&
  inClosedRange s.scale 0 10 &&
  inClosedRange s.ref_fidelity 0 1 &&
  inClosedRange s.ref_strength 0 1 &&
  inClosedRange s.controlnet_strength (mkRat 1 100) 1 &&
  inClosedRange s.strength (mkRat 1 100) (mkRat 99 100) &&
  inClosedRange s.noise 0 (mkRat 99 100)

/-- Source KEY_ALIASES (interactive.py lines 27-39). -/
def KEY_ALIASES : List (String × String) :=
  [ ("m", "model"), ("model", "model"), ("res", "size"),
    ("resolution", "size"), ("size", "size"), ("st", "steps"),
    ("steps", "steps"), ("cfg", "scale"), ("scale", "scale"),
    ("sp", "sampler"), ("sampler", "sampler") ]

/-- First value at a key in a string association list. -/
def lookupAlias : List (String × String) → String → Option String
  | [], _ => none
  | (k, v) :: rest, key => if k = key then some v else lookupAlias rest key

/-- Source _normalize_set_key (interactive.py lines 79-81): strip,
lowercase, then KEY_ALIASES.get of the key with the key itself as
fallback. -/
def normalizeSetKey (key : String) : String :=
  let k := pyLower (pyStrip key)
  match lookupAlias KEY_ALIASES k with
  | some v => v
  | none => k

/-- The enum choice lists MODEL_CHOICES, SAMPLER_CHOICES and
UC_PRESET_CHOICES are derived in constants.py from type definitions outside
this source tree; every theorem below holds for every choice of these
lists. -/
structure EnumChoices where
  modelChoices : List String
  samplerChoices : List String
  ucPresetChoices : List String

/-- Source _apply_interactive_set (interactive.py lines 150-207), with the
setter table of _interactive_setters (lines 51-76) inlined key by key: an
unknown key is a no-op; a failed cast is a no-op; otherwise the value is
applied speculatively, validate_args is re-run and on failure the old value
is restored; for model, sampler, uc-preset and ref-type an additional enum
membership check rolls back identically; finally, clearing reference,
controlnet or image to None resets the dependent sibling fields to the
parse-time defaults (the casts of those three keys are str, which never
yields None, so that reset is unreachable from here). Console output is not
modelled. -/
def applyInteractiveSet (ch : EnumChoices) (defaults s : SessionState)
    (key value : String) : SessionState :=
  if key = "model" then
    let s1 : SessionState := { s with model := value }
    if validate_args s1 = true then
      if ch.modelChoices.contains s1.model then s1 else s
    else s
  else if key = "size" then
    let s1 : SessionState := { s with size := value }
    if validate_args s1 = true then s1 else s
  else if key = "steps" then
    match parsePyInt value with
    | none => s
    | some nv =>
      let s1 : SessionState := { s with steps := nv }
      if validate_args s1 = true then s1 else s
  else if key = "scale" then
    match parsePyFloat value with
    | none => s
    | some nv =>
      let s1 : SessionState := { s with scale := nv }
      if validate_args s1 = true then s1 else s
  else if key = "sampler" then
    let s1 : SessionState := { s with sampler := value }
    if validate_args s1 = true then
      if ch.samplerChoices.contains s1.sampler then s1 else s
    else s
  else if key = "seed" then
    match parse_seed_value value with
    | none => s
    | some nv =>
      let s1 : SessionState := { s with seed := nv }
      if validate_args s1 = true then s1 else s
  else if key = "quality" then
    match parse_bool_value value with
    | none => s
    | some nv =>
      let s1 : SessionState := { s with quality := nv }
      if validate_args s1 = true then s1 else s
  else if key = "uc-preset" then
    let s1 : SessionState := { s with uc_preset := value }
    if validate_args s1 = true then
      if ch.ucPresetChoices.contains s1.uc_preset then s1 else s
    else s
  else if key = "negative-prompt" then
    let s1 : SessionState := { s with negative_prompt := some value }
    if validate_args s1 = true then s1 else s
  else if key = "reference" then
    let nv : Option String := some value
    let s1 : SessionState := { s with reference := nv }
    if validate_args s1 = true then
      if nv = none then
        { s1 with
          ref_type := defaults.ref_type
          ref_fidelity := defaults.ref_fidelity
          ref_strength := defaults.ref_strength }
      else s1
    else s
  else if key = "ref-type" then
    let s1 : SessionState := { s with ref_type := value }
    if validate_args s1 = true then
      if REF_TYPE_CHOICES.contains s1.ref_type then s1 else s
    else s
  else if key = "ref-fidelity" then
    match parsePyFloat value with
    | none => s
    | some nv =>
      let s1 : SessionState := { s with ref_fidelity := nv }
      if validate_args s1 = true then s1 else s
  else if key = "ref-strength" then
    match parsePyFloat value with
    | none => s
    | some nv =>
      let s1 : SessionState := { s with ref_strength := nv }
      if validate_args s1 = true then s1 else s
  else if key = "character-prompt" then
    let s1 : SessionState := { s with character_prompt := some value }
    if validate_args s1 = true then s1 else s
  else if key = "controlnet" then
    let nv : Option String := some value
    let s1 : SessionState := { s with controlnet := nv }
    if validate_args s1 = true then
      if nv = none then
        { s1 with controlnet_strength := defaults.controlnet_strength }
      else s1
    else s
  else if key = "controlnet-strength" then
    match parsePyFloat value with
    | none => s
    | some nv =>
      let s1 : SessionState := { s with controlnet_strength := nv }
      if validate_args s1 = true then s1 else s
  else if key = "image" then
    let nv : Option String := some value
    let s1 : SessionState := { s with image := nv }
    if validate_args s1 = true then
      if nv = none then
        { s1 with
          strength := defaults.strength
          noise := defaults.noise }
      else s1
    else s
  else if key = "strength" then
    match parsePyFloat value with
    | none => s
    | some nv =>
      let s1 : SessionState := { s with strength := nv }
      if validate_args s1 = true then s1 else s
  else if key = "n-images" then
    match parsePyInt value with
    | none => s
    | some nv =>
      let s1 : SessionState := { s with n_images := nv }
      if validate_args s1 = true then s1 else s
  else if key = "noise" then
    match parsePyFloat value with
    | none => s
    | some nv =>
      let s1 : SessionState := { s with noise := nv }
      if validate_args s1 = true then s1 else s
  else if key = "output" then
    let s1 : SessionState := { s with output := value }
    if validate_args s1 = true then s1 else s
  else if key = "stream" then
    match parse_bool_value value with
    | none => s
    | some nv =>
      let s1 : SessionState := { s with stream := nv }
      if validate_args s1 = true then s1 else s
  else if key = "stream-dir" then
    let s1 : SessionState := { s with stream_dir := value }
    if validate_args s1 = true then s1 else s
  else s

/-- One interactive /set command (interactive_loop lines 264-271): the key
token is resolved through _normalize_set_key, then _apply_interactive_set
runs. -/
def setCommand (ch : EnumChoices) (defaults s : SessionState)
    (key value : String) : SessionState :=
  applyInteractiveSet ch defaults s (normalizeSetKey key) value

/-- A finite sequence of /set commands applied in order. -/
def runSetCommands (ch : EnumChoices) (defaults : SessionState)
    (s : SessionState) (cmds : List (String × String)) : SessionState :=
  cmds.foldl (fun st kv => setCommand ch defaults st kv.1 kv.2) s

/-- One interactive /unset command (interactive_loop lines 281-291 together
with _normalize_unset_value, lines 102-113): the key token is resolved
through _normalize_set_key and hyphens become underscores; an attribute of
the record is then reset to None when it is one of the six nullable keys
and to its parse-time default otherwise; an unknown attribute is a no-op.
Console output is not modelled. -/
def unsetCommand (defaults s : SessionState) (token : String) :
    SessionState :=
  let key := String.mk ((normalizeSetKey token).toList.map
    (fun c => if c = '-' then '_' else c))
  if key = "prompt" then { s with prompt := defaults.prompt }
  else if key = "model" then { s with model := defaults.model }
  else if key = "size" then { s with size := defaults.size }
  else if key = "steps" then { s with steps := defaults.steps }
  else if key = "scale" then { s with scale := defaults.scale }
  else if key = "sampler" then { s with sampler := defaults.sampler }
  else if key = "seed" then { s with seed := none }
  else if key = "quality" then { s with quality := defaults.quality }
  else if key = "uc_preset" then { s with uc_preset := defaults.uc_preset }
  else if key = "negative_prompt" then { s with negative_prompt := none }
  else if key = "reference" then { s with reference := none }
  else if key = "ref_type" then { s with ref_type := defaults.ref_type }
  else if key = "ref_fidelity" then
    { s with ref_fidelity := defaults.ref_fidelity }
  else if key = "ref_strength" then
    { s with ref_strength := defaults.ref_strength }
  else if key = "character_prompt" then { s with character_prompt := none }
  else if key = "controlnet" then { s with controlnet := none }
  else if key = "controlnet_strength" then
    { s with controlnet_strength := defaults.controlnet_strength }
  else if key = "image" then { s with image := none }
  else if key = "strength" then { s with strength := defaults.strength }
  else if key = "n_images" then { s with n_images := defaults.n_images }
  else if key = "noise" then { s with noise := defaults.noise }
  else if key = "output" then { s with output := defaults.output }
  else if key = "stream" then { s with stream := defaults.stream }
  else if key = "stream_dir" then { s with stream_dir := defaults.stream_dir }
  else s

/-! ## Association-list lemmas -/

theorem filter_id_of_all {α : Type} (f : α → Bool) :
    ∀ l : List α, (∀ x ∈ l, f x = true) → l.filter f = l := by
  intro l h
  induction l with
  | nil => rfl
  | cons a rest ih =>
    have ha : f a = true := h a (List.mem_cons_self a rest)
    simp only [List.filter_cons, ha, if_pos]
    rw [ih (fun x hx => h x (List.mem_cons_of_mem a hx))]

theorem mem_filter_keys (allowed : List String) (l : Payload)
    (kv : String × JVal)
    (h : kv ∈ l.filter (fun kv => decide (kv.1 ∈ allowed))) :
    decide (kv.1 ∈ allowed) = true :=
  (List.mem_filter.mp h).2

theorem lookupKey_dictSet_self (l : Payload) (k : String) (v : JVal) :
    lookupKey (dictSet l k v) k = some v := by
  induction l with
  | nil => simp [dictSet, lookupKey]
  | cons hd rest ih =>
    obtain ⟨k0, v0⟩ := hd
    by_cases hk : k0 = k
    · subst hk
      simp [dictSet, lookupKey]
    · simp [dictSet, hk, lookupKey, ih]

theorem dictSet_eq_self_of_lookup (l : Payload) (k : String) (v : JVal) :
    lookupKey l k = some v → dictSet l k v = l := by
  induction l with
  | nil =>
    intro h
    simp [lookupKey] at h
  | cons hd rest ih =>
    obtain ⟨k0, v0⟩ := hd
    by_cases hk : k0 = k
    · subst hk
      intro h
      simp only [lookupKey, if_pos] at h
      simp only [Option.some.injEq] at h
      simp [dictSet, h]
    · intro h
      simp only [lookupKey, if_neg hk] at h
      simp [dictSet, hk, ih h]

theorem mem_dictSet (l : Payload) (k : String) (v : JVal)
    (kv : String × JVal) :
    kv ∈ dictSet l k v → kv = (k, v) ∨ kv ∈ l := by
  induction l with
  | nil =>
    intro h
    simp [dictSet] at h
    exact Or.inl h
  | cons hd rest ih =>
    obtain ⟨k0, v0⟩ := hd
    by_cases hk : k0 = k
    · subst hk
      intro h
      simp only [dictSet, if_pos, List.mem_cons] at h
      rcases h with h | h
      · exact Or.inl h
      · exact Or.inr (List.mem_cons_of_mem _ h)
    · intro h
      simp only [dictSet, if_neg hk, List.mem_cons] at h
      rcases h with h | h
      · exact Or.inr (h ▸ List.mem_cons_self _ _)
      · rcases ih h with h2 | h2
        · exact Or.inl h2
        · exact Or.inr (List.mem_cons_of_mem _ h2)

theorem mem_of_lookupKey (l : Payload) (k : String) (v : JVal) :
    lookupKey l k = some v → (k, v) ∈ l := by
  induction l with
  | nil =>
    intro h
    simp [lookupKey] at h
  | cons hd rest ih =>
    obtain ⟨k0, v0⟩ := hd
    by_cases hk : k0 = k
    · subst hk
      intro h
      simp only [lookupKey, if_pos] at h
      simp only [Option.some.injEq] at h
      subst h
      exact List.mem_cons_self _ _
    · intro h
      simp only [lookupKey, if_neg hk] at h
      exact List.mem_cons_of_mem _ (ih h)

theorem asObjectDict_some_inv (o : Option JVal) (po : Payload)
    (h : asObjectDict o = some po) : o = some (JVal.obj po) := by
  cases o with
  | none => simp [asObjectDict] at h
  | some v =>
    cases v with
    | obj fields => simp [asObjectDict] at h; rw [h]
    | str s => simp [asObjectDict] at h
    | num n => simp [asObjectDict] at h
    | jbool b => simp [asObjectDict] at h
    | jnull => simp [asObjectDict] at h
    | arr xs => simp [asObjectDict] at h

/-- A payload already clean for both whitelists is a fixed point of the
sanitizer. -/
theorem sanitize_fixed (aT aP : List String) (q : Payload)
    (h1 : ∀ kv ∈ q, decide (kv.1 ∈ aT) = true)
    (h2 : ∀ po, asObjectDict (lookupKey q "parameters") = some po →
      ∀ kv ∈ po, decide (kv.1 ∈ aP) = true) :
    sanitizeLowLevel aT aP q = q := by
  simp only [sanitizeLowLevel]
  rw [filter_id_of_all _ q h1]
  cases hh : asObjectDict (lookupKey q "parameters") with
  | none => rfl
  | some po =>
    simp only
    rw [filter_id_of_all _ po (h2 po hh)]
    exact dictSet_eq_self_of_lookup q "parameters" (JVal.obj po)
      (asObjectDict_some_inv _ _ hh)

/-- Every key of a sanitized payload is in the top-level whitelist. -/
theorem sanitize_keys_clean (aT aP : List String) (p : Payload) :
    ∀ kv ∈ sanitizeLowLevel aT aP p, decide (kv.1 ∈ aT) = true := by
  intro kv hkv
  simp only [sanitizeLowLevel] at hkv
  revert hkv
  cases hh : asObjectDict
      (lookupKey (p.filter (fun kv => decide (kv.1 ∈ aT))) "parameters") with
  | none =>
    intro hkv
    exact mem_filter_keys _ _ _ hkv
  | some po =>
    intro hkv
    rcases mem_dictSet _ _ _ _ hkv with h | h
    · subst h
      have hmem := mem_of_lookupKey _ _ _ (asObjectDict_some_inv _ po hh)
      have hdec := mem_filter_keys aT p ("parameters", JVal.obj po) hmem
      exact hdec
    · exact mem_filter_keys _ _ _ h

/-- Every key of the parameters mapping of a sanitized payload is in the
parameters whitelist. -/
theorem sanitize_params_clean (aT aP : List String) (p : Payload) :
    ∀ po, asObjectDict (lookupKey (sanitizeLowLevel aT aP p) "parameters") =
      some po → ∀ kv ∈ po, decide (kv.1 ∈ aP) = true := by
  intro po hpo kv hkv
  simp only [sanitizeLowLevel] at hpo
  revert hpo
  cases hh : asObjectDict
      (lookupKey (p.filter (fun kv => decide (kv.1 ∈ aT))) "parameters") with
  | none =>
    intro hpo
    rw [hh] at hpo
    simp at hpo
  | some po0 =>
    intro hpo
    rw [lookupKey_dictSet_self] at hpo
    simp only [asObjectDict, Option.some.injEq] at hpo
    subst hpo
    exact mem_filter_keys _ _ _ hkv

/-- Claim C5: field sanitization of a low-level payload is idempotent, for
every top-level and parameters whitelist and every payload. -/
theorem sanitizeLowLevel_idempotent (aT aP : List String) (p : Payload) :
    sanitizeLowLevel aT aP (sanitizeLowLevel aT aP p) =
      sanitizeLowLevel aT aP p :=
  sanitize_fixed aT aP (sanitizeLowLevel aT aP p)
    (sanitize_keys_clean aT aP p) (sanitize_params_clean aT aP p)

/-- Claim C4: a raw payload is classified low-level if and only if its
top-level "parameters" value is a mapping and it carries a top-level
"input" or "action" key; every other payload is classified high-level. -/
theorem isLowLevelPayload_iff (p : Payload) :
    isLowLevelPayload p = true ↔
      ((∃ fields, lookupKey p "parameters" = some (JVal.obj fields)) ∧
        (hasKey p "input" = true ∨ hasKey p "action" = true)) := by
  unfold isLowLevelPayload
  cases h : lookupKey p "parameters" with
  | none => simp [h]
  | some v => cases v <;> simp [h]

/-- Claim C8: stream-mode normalization with force_stream false returns the
payload unchanged, whatever the parameters' declared stream field is. -/
theorem normalizeStreamMode_noop_of_not_forced (p : Payload) :
    normalizeLowLevelStreamMode p false = p := by
  unfold normalizeLowLevelStreamMode
  cases h : asObjectDict (lookupKey p "parameters") <;> simp

/-- Claim C3, counterexample: with two images and destination "out.png"
the files are written to image_0001.png and image_0002.png in the current
directory (Path("out.png").parent), not to out/image_0001.png and
out/image_0002.png as claimed. -/
theorem saveImages_two_out_png :
    saveImages [(), ()] "out.png" =
        [["image_0001.png"], ["image_0002.png"]] ∧
      saveImages [(), ()] "out.png" ≠
        [["out", "image_0001.png"], ["out", "image_0002.png"]] := by
  constructor
  · decide
  · decide

/-- Claim C3 as amended: with exactly one image and an extension-less
destination the image goes to destination/image.png; with two or more
images and an extension-bearing destination the trailing filename is
dropped and the numbered files go into the destination's parent
directory. -/
theorem saveImages_layout (img : Unit) (imgs : List Unit) (output : String) :
    (pathSuffix (pyPathOfString output) = "" →
      saveImages [img] output = [pyPathOfString output ++ ["image.png"]]) ∧
    (pathSuffix (pyPathOfString output) ≠ "" → 2 ≤ imgs.length →
      saveImages imgs output = (List.range imgs.length).map
        (fun i => pathParent (pyPathOfString output) ++
          ["image_" ++ pad4 (i + 1) ++ ".png"])) := by
  constructor
  · intro hsuf
    simp [saveImages, hsuf]
  · intro hsuf hlen
    have hne : imgs.length ≠ 1 := by omega
    simp [saveImages, hsuf, hne]

/-- Witness for saveImages_layout at the spec's scenario inputs. -/
theorem saveImages_layout_check :
    saveImages [()] "out" = [["out", "image.png"]] ∧
      saveImages [(), ()] "out.png" =
        [["image_0001.png"], ["image_0002.png"]] := by
  constructor
  · exact (saveImages_layout () [] "out").1 (by decide)
  · exact ((saveImages_layout () [(), ()] "out.png").2 (by decide)
      (by decide)).trans (by decide)

/-- The chunk loop grows the write list and the counter by exactly the
number of chunks consumed. -/
theorem streamChunk_foldl_stats (decode : String → List Nat)
    (chunks : List ImageStreamChunk) :
    ∀ acc : List (String × List Nat) × Nat × Nat,
      (chunks.foldl (streamChunkStep decode) acc).1.length =
          acc.1.length + chunks.length ∧
        (chunks.foldl (streamChunkStep decode) acc).2.1 =
          acc.2.1 + chunks.length := by
  induction chunks with
  | nil => intro acc; simp
  | cons c rest ih =>
    intro acc
    simp only [List.foldl_cons]
    have h := ih (streamChunkStep decode acc c)
    have h1 : (streamChunkStep decode acc c).1.length = acc.1.length + 1 := by
      simp [streamChunkStep]
    have h2 : (streamChunkStep decode acc c).2.1 = acc.2.1 + 1 := rfl
    refine ⟨?_, ?_⟩
    · rw [h.1, h1, List.length_cons]
      omega
    · rw [h.2, h2, List.length_cons]
      omega

/-- Claim C6: the stream decoder raises its empty-stream error iff the
chunk sequence was empty, in which case nothing was written; with N chunks
it completes without that error, having written exactly N files. -/
theorem saveStreamChunks_spec (decode : String → List Nat)
    (chunks : List ImageStreamChunk) :
    ((saveStreamChunks decode chunks).2 = true ↔ chunks = []) ∧
      (chunks = [] → (saveStreamChunks decode chunks).1 = []) ∧
      (saveStreamChunks decode chunks).1.length = chunks.length := by
  have hs := streamChunk_foldl_stats decode chunks ([], 0, 0)
  refine ⟨?_, ?_, ?_⟩
  · unfold saveStreamChunks
    simp only [hs.2]
    simp [List.length_eq_zero]
  · intro h
    subst h
    rfl
  · unfold saveStreamChunks
    simpa using hs.1

/-- Witness for saveStreamChunks_spec: the error fires on the empty
sequence, and a two-chunk sequence writes two files without the error. -/
theorem saveStreamChunks_check :
    (saveStreamChunks (fun _ => [ 104, 105 ]) []).2 = true ∧
      (saveStreamChunks (fun _ => [ 104, 105 ])
          [ ⟨"aGk="⟩, ⟨"aGk="⟩ ]).1.length = 2 ∧
      (saveStreamChunks (fun _ => [ 104, 105 ]) [ ⟨"aGk="⟩, ⟨"aGk="⟩ ]).2 =
        false := by
  refine ⟨?_, ?_, ?_⟩
  · exact ((saveStreamChunks_spec (fun _ => [ 104, 105 ]) []).1).mpr rfl
  · exact (saveStreamChunks_spec (fun _ => [ 104, 105 ])
      [ ⟨"aGk="⟩, ⟨"aGk="⟩ ]).2.2
  · have h := ((saveStreamChunks_spec (fun _ => [ 104, 105 ])
      [ ⟨"aGk="⟩, ⟨"aGk="⟩ ]).1)
    by_contra hb
    simp only [Bool.not_eq_false] at hb
    exact absurd (h.mp hb) (by decide)

/-- Claim C7: whenever schema validation of a request fails, the pipeline
aborts with zero calls to the transport collaborator, for every choice of
validators, caller stream flag and payload. -/
theorem pipeline_zero_calls_on_invalid (deps : PipelineDeps)
    (argsStream : Bool) (p : Payload)
    (h : (generateFromRequestJson deps argsStream p).validated = false) :
    (generateFromRequestJson deps argsStream p).transportCalls = 0 := by
  simp only [generateFromRequestJson] at h ⊢
  split at h <;> split at h <;> split at h <;> simp_all

/-- Modelled from the spec: the pydantic schema validators live outside
this source tree; for the spec's scenario only the steps range check
matters, so this validator accepts a payload unless a steps field of its
parameters mapping holds an integer outside the range 1 to 50. -/
def specStepsRangeCheck (p : Payload) : Bool :=
  match asObjectDict (lookupKey p "parameters") with
  | some po =>
    match lookupKey po "steps" with
    | some (JVal.num n) => decide (1 ≤ n) && decide (n ≤ 50)
    | _ => true
  | none => true

/-- The spec's scenario payload: prompt "cat", the default model, steps 60
inside parameters, and no input or action key. -/
def scenarioPayload : Payload :=
  [ ("prompt", JVal.str "cat"),
    ("model", JVal.str "nai-diffusion-4-5-full"),
    ("parameters", JVal.obj [ ("steps", JVal.num 60) ]) ]

/-- Witness for pipeline_zero_calls_on_invalid at the spec's scenario: the
payload has no input or action key, so it is classified high-level, the
steps range check rejects steps 60, and no transport call is made. -/
theorem pipeline_zero_calls_check :
    isLowLevelPayload scenarioPayload = false ∧
      (generateFromRequestJson
        ⟨[], [], fun _ => true, fun _ => true, fun _ => true,
          specStepsRangeCheck⟩ false scenarioPayload).validated = false ∧
      (generateFromRequestJson
        ⟨[], [], fun _ => true, fun _ => true, fun _ => true,
          specStepsRangeCheck⟩ false scenarioPayload).transportCalls = 0 := by
  refine ⟨by decide, by decide, ?_⟩
  exact pipeline_zero_calls_on_invalid
    ⟨[], [], fun _ => true, fun _ => true, fun _ => true,
      specStepsRangeCheck⟩ false scenarioPayload (by decide)

/-- Claim C9: for a low-level payload the pipeline takes the streaming
dispatch path exactly when the caller passed the stream flag or the
sanitized payload's parameters mapping contains a "stream" key, whatever
its value; otherwise it takes the single-response low-level path. -/
theorem pipeline_stream_trigger (deps : PipelineDeps) (argsStream : Bool)
    (p : Payload) (h : isLowLevelPayload p = true) :
    ((generateFromRequestJson deps argsStream p).path =
        DispatchPath.lowStream ↔
      (argsStream || streamKeyInSanitized deps p) = true) ∧
      ((generateFromRequestJson deps argsStream p).path =
          DispatchPath.lowStream ∨
        (generateFromRequestJson deps argsStream p).path =
          DispatchPath.lowSingle) := by
  simp only [generateFromRequestJson, if_pos h]
  have hsk : streamKeyInSanitized deps p =
      (match asObjectDict
          (lookupKey (sanitizeLowLevel deps.allowedTop deps.allowedParams p)
            "parameters") with
        | some po => hasKey po "stream"
        | none => false) := rfl
  rw [hsk]
  cases hst : (argsStream ||
      (match asObjectDict
          (lookupKey (sanitizeLowLevel deps.allowedTop deps.allowedParams p)
            "parameters") with
        | some po => hasKey po "stream"
        | none => false)) with
  | false =>
    simp only [hst, Bool.false_eq_true, if_false]
    constructor
    · split <;> simp
    · split <;> simp
  | true =>
    simp only [hst, if_true]
    constructor
    · split <;> simp
    · split <;> simp

/-- Witness for pipeline_stream_trigger: a low-level payload with a stray
parameters.stream field triggers the streaming path even though the caller
did not pass the stream flag. -/
theorem pipeline_stream_trigger_check :
    (generateFromRequestJson
        ⟨[ "input", "parameters" ], [ "stream" ], fun _ => true,
          fun _ => true, fun _ => true, fun _ => true⟩ false
        [ ("input", JVal.str "x"),
          ("parameters", JVal.obj [ ("stream", JVal.num 7) ]) ]).path =
      DispatchPath.lowStream := by
  exact ((pipeline_stream_trigger
    ⟨[ "input", "parameters" ], [ "stream" ], fun _ => true, fun _ => true,
      fun _ => true, fun _ => true⟩ false
    [ ("input", JVal.str "x"),
      ("parameters", JVal.obj [ ("stream", JVal.num 7) ]) ]
    (by decide)).1).mpr (by decide)

/-- Rollback dichotomy of _apply_interactive_set: each call either leaves
the record exactly as it was (unknown key, failed cast, failed range
validation, failed enum membership) or commits a record that passes
validate_args. -/
theorem commit_dichotomy (s s1 : SessionState) :
    (if validate_args s1 = true then s1 else s) = s ∨
      validate_args (if validate_args s1 = true then s1 else s) = true := by
  split_ifs with hv
  · exact Or.inr hv
  · exact Or.inl rfl

theorem commitEnum_dichotomy (s s1 : SessionState) (ok : Bool) :
    (if validate_args s1 = true then if ok = true then s1 else s else s) =
        s ∨
      validate_args
        (if validate_args s1 = true then if ok = true then s1 else s
          else s) = true := by
  split_ifs with hv hok
  · exact Or.inr hv
  · exact Or.inl rfl
  · exact Or.inl rfl

theorem commitClear_dichotomy (s s1 r : SessionState) (v : String) :
    (if validate_args s1 = true then
        if (some v : Option String) = none then r else s1
      else s) = s ∨
      validate_args
        (if validate_args s1 = true then
          if (some v : Option String) = none then r else s1
        else s) = true := by
  split_ifs with hv hn
  · exact absurd hn (by simp)
  · exact Or.inr hv
  · exact Or.inl rfl

theorem applySet_dichotomy (ch : EnumChoices) (d s : SessionState)
    (key value : String) :
    applyInteractiveSet ch d s key value = s ∨
      validate_args (applyInteractiveSet ch d s key value) = true := by
  unfold applyInteractiveSet
  by_cases h1 : key = "model"
  · rw [if_pos h1]
    exact commitEnum_dichotomy s _ _
  rw [if_neg h1]
  by_cases h2 : key = "size"
  · rw [if_pos h2]
    exact commit_dichotomy s _
  rw [if_neg h2]
  by_cases h3 : key = "steps"
  · rw [if_pos h3]
    cases hp : parsePyInt value
    · exact Or.inl rfl
    · exact commit_dichotomy s _
  rw [if_neg h3]
  by_cases h4 : key = "scale"
  · rw [if_pos h4]
    cases hp : parsePyFloat value
    · exact Or.inl rfl
    · exact commit_dichotomy s _
  rw [if_neg h4]
  by_cases h5 : key = "sampler"
  · rw [if_pos h5]
    exact commitEnum_dichotomy s _ _
  rw [if_neg h5]
  by_cases h6 : key = "seed"
  · rw [if_pos h6]
    cases hp : parse_seed_value value
    · exact Or.inl rfl
    · exact commit_dichotomy s _
  rw [if_neg h6]
  by_cases h7 : key = "quality"
  · rw [if_pos h7]
    cases hp : parse_bool_value value
    · exact Or.inl rfl
    · exact commit_dichotomy s _
  rw [if_neg h7]
  by_cases h8 : key = "uc-preset"
  · rw [if_pos h8]
    exact commitEnum_dichotomy s _ _
  rw [if_neg h8]
  by_cases h9 : key = "negative-prompt"
  · rw [if_pos h9]
    exact commit_dichotomy s _
  rw [if_neg h9]
  by_cases h10 : key = "reference"
  · rw [if_pos h10]
    exact commitClear_dichotomy s _ _ value
  rw [if_neg h10]
  by_cases h11 : key = "ref-type"
  · rw [if_pos h11]
    exact commitEnum_dichotomy s _ _
  rw [if_neg h11]
  by_cases h12 : key = "ref-fidelity"
  · rw [if_pos h12]
    cases hp : parsePyFloat value
    · exact Or.inl rfl
    · exact commit_dichotomy s _
  rw [if_neg h12]
  by_cases h13 : key = "ref-strength"
  · rw [if_pos h13]
    cases hp : parsePyFloat value
    · exact Or.inl rfl
    · exact commit_dichotomy s _
  rw [if_neg h13]
  by_cases h14 : key = "character-prompt"
  · rw [if_pos h14]
    exact commit_dichotomy s _
  rw [if_neg h14]
  by_cases h15 : key = "controlnet"
  · rw [if_pos h15]
    exact commitClear_dichotomy s _ _ value
  rw [if_neg h15]
  by_cases h16 : key = "controlnet-strength"
  · rw [if_pos h16]
    cases hp : parsePyFloat value
    · exact Or.inl rfl
    · exact commit_dichotomy s _
  rw [if_neg h16]
  by_cases h17 : key = "image"
  · rw [if_pos h17]
    exact commitClear_dichotomy s _ _ value
  rw [if_neg h17]
  by_cases h18 : key = "strength"
  · rw [if_pos h18]
    cases hp : parsePyFloat value
    · exact Or.inl rfl
    · exact commit_dichotomy s _
  rw [if_neg h18]
  by_cases h19 : key = "n-images"
  · rw [if_pos h19]
    cases hp : parsePyInt value
    · exact Or.inl rfl
    · exact commit_dichotomy s _
  rw [if_neg h19]
  by_cases h20 : key = "noise"
  · rw [if_pos h20]
    cases hp : parsePyFloat value
    · exact Or.inl rfl
    · exact commit_dichotomy s _
  rw [if_neg h20]
  by_cases h21 : key = "output"
  · rw [if_pos h21]
    exact commit_dichotomy s _
  rw [if_neg h21]
  by_cases h22 : key = "stream"
  · rw [if_pos h22]
    cases hp : parse_bool_value value
    · exact Or.inl rfl
    · exact commit_dichotomy s _
  rw [if_neg h22]
  by_cases h23 : key = "stream-dir"
  · rw [if_pos h23]
    exact commit_dichotomy s _
  rw [if_neg h23]
  exact Or.inl rfl

/-- One /set command on a record that passes validate_args yields a record
that passes validate_args. -/
theorem setCommand_preserves (ch : EnumChoices) (d s : SessionState)
    (key value : String) (h : validate_args s = true) :
    validate_args (setCommand ch d s key value) = true := by
  rcases applySet_dichotomy ch d s (normalizeSetKey key) value with hc | hc
  · show validate_args (applyInteractiveSet ch d s (normalizeSetKey key)
      value) = true
    rw [hc]
    exact h
  · exact hc

/-- Claim C1: starting from any record that passes the range validator,
any finite sequence of /set commands, with arbitrary key and value strings
whether valid or not, leaves a record that still passes the range
validator, for every choice of enum lists and defaults. -/
theorem setCommands_keep_validator (ch : EnumChoices) (d s : SessionState)
    (cmds : List (String × String)) (h : validate_args s = true) :
    validate_args (runSetCommands ch d s cmds) = true := by
  induction cmds generalizing s with
  | nil => exact h
  | cons c rest ih =>
    simp only [runSetCommands, List.foldl_cons]
    exact ih (setCommand ch d s c.1 c.2) (setCommand_preserves ch d s c.1 c.2 h)

/-- Witness for setCommands_keep_validator: from the parse-time defaults,
a sequence with a rejected steps value, an unparseable scale, an unknown
key and two committed updates ends in a record passing validate_args. -/
theorem setCommands_keep_validator_check :
    validate_args defaultArgs = true ∧
      validate_args (runSetCommands
        ⟨[ "nai-diffusion-4-5-full" ], [ "k_euler_ancestral" ], [ "light" ]⟩
        defaultArgs defaultArgs
        [ ("st", "999"), ("scale", "abc"), ("bogus", "1"), ("st", "30"),
          ("noise", "0.25") ]) = true := by
  refine ⟨by decide, ?_⟩
  exact setCommands_keep_validator
    ⟨[ "nai-diffusion-4-5-full" ], [ "k_euler_ancestral" ], [ "light" ]⟩
    defaultArgs defaultArgs
    [ ("st", "999"), ("scale", "abc"), ("bogus", "1"), ("st", "30"),
      ("noise", "0.25") ] (by decide)

/-- Claim C10: validate_args never inspects size, so on any record passing
it, /set size stores any value string verbatim; a malformed explicit size
such as 12xab is only rejected by parse_size at generation time. -/
theorem set_size_verbatim (ch : EnumChoices) (d s : SessionState)
    (v : String) (h : validate_args s = true) :
    setCommand ch d s "size" v = { s with size := v } ∧
      validate_args { s with size := v } = validate_args s ∧
      parse_size "12xab" = none := by
  refine ⟨?_, rfl, by decide⟩
  show applyInteractiveSet ch d s (normalizeSetKey "size") v =
    { s with size := v }
  rw [show normalizeSetKey "size" = "size" from by decide]
  unfold applyInteractiveSet
  rw [if_neg (show ¬("size" : String) = "model" from by decide)]
  rw [if_pos (show ("size" : String) = "size" from rfl)]
  show (if validate_args { s with size := v } = true then
    { s with size := v } else s) = { s with size := v }
  have hv2 : validate_args { s with size := v } = true := h
  rw [if_pos hv2]

/-- Witness for set_size_verbatim at the defaults and the malformed size
of the claim. -/
theorem set_size_verbatim_check :
    setCommand ⟨[], [], []⟩ defaultArgs defaultArgs "size" "12xab" =
        { defaultArgs with size := "12xab" } ∧
      parse_size "12xab" = none := by
  have h := set_size_verbatim ⟨[], [], []⟩ defaultArgs defaultArgs "12xab"
    (by decide)
  exact ⟨h.1, h.2.2⟩

/-- A session state with a reference image and non-default reference
fidelity, strength and type, as reached by /set commands. -/
def refSessionState : SessionState :=
  { defaultArgs with
    reference := some "ref.png"
    ref_type := "style"
    ref_fidelity := mkRat 1 2
    ref_strength := mkRat 3 10 }

/-- Claim C2 evaluated at its failing input: /unset reference clears the
reference field but leaves ref-fidelity, ref-strength and ref-type at
their non-default values instead of resetting them to the pristine
defaults; the sibling-reset code in _apply_interactive_set is guarded by a
None cast result that the str cast of /set can never produce, and the
/unset branch of interactive_loop never runs it. -/
theorem unset_reference_keeps_siblings :
    (unsetCommand defaultArgs refSessionState "reference").reference =
        none ∧
      (unsetCommand defaultArgs refSessionState "reference").ref_fidelity =
        mkRat 1 2 ∧
      (unsetCommand defaultArgs refSessionState "reference").ref_strength =
        mkRat 3 10 ∧
      (unsetCommand defaultArgs refSessionState "reference").ref_type =
        "style" ∧
      defaultArgs.ref_fidelity = 1 ∧ defaultArgs.ref_strength = 1 ∧
      defaultArgs.ref_type = "character&style" := by
  decide

end NovelaiCLI
